import Mathlib

/-!
Verification development for the Sensor-Watch alarm face
(src/movement/watch_faces/complication/alarm_face.c).

The file shallowly embeds the alarm-face state machine: the data model
(alarm slots and UI state), the weekday computation, the per-minute trigger
evaluator, the event handler, and the render function, and proves the
behavioural properties of the module against these definitions.

The header alarm_face.h and the host interface watch.h are not among the
sources; the constants and record layouts they declare are modelled from the
specification, as marked in the corresponding doc comments.  Machine
integers are modelled as Nat (with explicit modulo arithmetic where the code
wraps), except alarm_handled_minute, which the code compares against the
signed sentinel -1 and is therefore an Int.
-/

/-- Modelled from the spec: number of alarm slots (alarm_face.h, not among
the sources; the spec fixes 10 independently configurable slots). -/
abbrev ALARM_ALARMS : Nat := 10

/-- Modelled from the spec: number of day-pattern states (11: the seven
weekdays Monday..Sunday encoded 0..6, then EACH_DAY, ONE_TIME, WORKDAY,
WEEKEND). -/
abbrev ALARM_DAY_STATES : Nat := 11

/-- Modelled from the spec: day-pattern tag for an alarm that rings every
day.  The encoding 0..6 = Monday..Sunday is forced by the comparison of the
day field with the weekday index in the trigger evaluator and by the
display-string table. -/
abbrev ALARM_DAY_EACH_DAY : Nat := 7

/-- Modelled from the spec: day-pattern tag for a one-time alarm. -/
abbrev ALARM_DAY_ONE_TIME : Nat := 8

/-- Modelled from the spec: day-pattern tag for a Monday-to-Friday alarm. -/
abbrev ALARM_DAY_WORKDAY : Nat := 9

/-- Modelled from the spec: day-pattern tag for a weekend alarm. -/
abbrev ALARM_DAY_WEEKEND : Nat := 10

/-- Modelled from the spec: number of setting stages (alarm select, day,
hour, minute, pitch, beep rounds). -/
abbrev ALARM_SETTING_STATES : Nat := 6

/-- Modelled from the spec: beep-round counter cycles modulo 9. -/
abbrev ALARM_MAX_BEEP_ROUNDS : Nat := 9

/-- Modelled from the spec: one alarm record of alarm_state_t
(alarm_face.h, not among the sources).  Field ranges maintained by the
code: day 0..10, hour 0..23, minute 0..59, beeps 0..8, pitch 0..2. -/
structure AlarmSlot where
  day : Nat
  hour : Nat
  minute : Nat
  beeps : Nat
  pitch : Nat
  enabled : Bool
deriving DecidableEq, Repr

/-- Modelled from the spec: the civil date-time value delivered by the host
RTC (watch.h, not among the sources).  The year field is stored as an
offset from 2020, month is 1..12, day is 1..31, as used by
_get_weekday_idx and the trigger evaluator. -/
structure WatchDateTime where
  year : Nat
  month : Nat
  day : Nat
  hour : Nat
  minute : Nat
deriving DecidableEq, Repr

/-- Modelled from the spec: alarm_state_t (alarm_face.h, not among the
sources): the ten slots plus the UI cursor and trigger-latch state.
alarm_handled_minute is an Int because the code stores the out-of-range
sentinel -1 in it. -/
structure AlarmState where
  alarm : Fin ALARM_ALARMS → AlarmSlot
  alarm_idx : Fin ALARM_ALARMS
  alarm_playing_idx : Fin ALARM_ALARMS
  alarm_handled_minute : Int
  is_setting : Bool
  setting_state : Nat

/-- Pointwise slot-array update (the effect of an assignment to
state->alarm[j]). -/
def setSlot (al : Fin ALARM_ALARMS → AlarmSlot) (j : Fin ALARM_ALARMS)
    (v : AlarmSlot) : Fin ALARM_ALARMS → AlarmSlot :=
  fun k => if k = j then v else al k

/-- Update the currently selected slot (state->alarm[state->alarm_idx]). -/
def modifySlot (s : AlarmState) (f : AlarmSlot → AlarmSlot) : AlarmState :=
  { s with alarm := setSlot s.alarm s.alarm_idx (f (s.alarm s.alarm_idx)) }

/-- Cyclic increment of the displayed-slot cursor:
(alarm_idx + 1) % ALARM_ALARMS. -/
def nextIdx (i : Fin ALARM_ALARMS) : Fin ALARM_ALARMS :=
  ⟨(i.val + 1) % ALARM_ALARMS, Nat.mod_lt _ (by decide)⟩

/-- The weekday computation of alarm_face.c (a Zeller-congruence variant):
year += 20; if month <= 2 then month += 12, year -= 1; then
(day + 13*(month+1)/5 + year + year/4 + 525 - 2) % 7.  Returns
0 = Monday .. 6 = Sunday. -/
def _get_weekday_idx (dt : WatchDateTime) : Nat :=
  let y0 := dt.year + 20
  let m := if dt.month ≤ 2 then dt.month + 12 else dt.month
  let y := if dt.month ≤ 2 then y0 - 1 else y0
  (dt.day + 13 * (m + 1) / 5 + y + y / 4 + 525 - 2) % 7

/-- The in-place erasure the code performs on a one-time alarm that fires:
day := EACH_DAY, minute := hour := 0, enabled := false (beeps and pitch are
untouched). -/
def eraseSlot (a : AlarmSlot) : AlarmSlot :=
  { a with day := ALARM_DAY_EACH_DAY, minute := 0, hour := 0, enabled := false }

/-- One step of the slot-scanning loop of alarm_face_wants_background_task,
with explicit fuel (the loop runs for i = 0 .. ALARM_ALARMS-1 with early
returns; fuel ALARM_ALARMS from index 0 covers the whole loop).  As in the
code, alarm_playing_idx is assigned as soon as an enabled slot matches the
current hour and minute, before the day-pattern checks, and a matching
one-time slot is erased (day := EACH_DAY, minute := hour := 0,
enabled := false) in the same step that reports the match. -/
def scanAux (now : WatchDateTime) : Nat → Nat → AlarmState → Bool × AlarmState
  | 0, _, s => (false, s)
  | n + 1, i, s =>
    if h : i < ALARM_ALARMS then
      if (s.alarm ⟨i, h⟩).enabled = true then
        if (s.alarm ⟨i, h⟩).minute = now.minute then
          if (s.alarm ⟨i, h⟩).hour = now.hour then
            if (s.alarm ⟨i, h⟩).day = ALARM_DAY_EACH_DAY then
              (true, { s with alarm_playing_idx := ⟨i, h⟩ })
            else if (s.alarm ⟨i, h⟩).day = ALARM_DAY_ONE_TIME then
              (true, { s with alarm_playing_idx := ⟨i, h⟩, alarm := setSlot s.alarm ⟨i, h⟩ (eraseSlot (s.alarm ⟨i, h⟩)) })
            else if (s.alarm ⟨i, h⟩).day = _get_weekday_idx now then
              (true, { s with alarm_playing_idx := ⟨i, h⟩ })
            else if (s.alarm ⟨i, h⟩).day = ALARM_DAY_WORKDAY ∧ _get_weekday_idx now < 5 then
              (true, { s with alarm_playing_idx := ⟨i, h⟩ })
            else if (s.alarm ⟨i, h⟩).day = ALARM_DAY_WEEKEND ∧ 5 ≤ _get_weekday_idx now then
              (true, { s with alarm_playing_idx := ⟨i, h⟩ })
            else scanAux now n (i + 1) { s with alarm_playing_idx := ⟨i, h⟩ }
          else scanAux now n (i + 1) s
        else scanAux now n (i + 1) s
      else scanAux now n (i + 1) s
    else (false, s)

/-- The trigger evaluator alarm_face_wants_background_task: returns whether
a background task is requested together with the mutated state.  Guard: if
alarm_handled_minute equals the current minute, return false at once;
otherwise latch the minute, scan the slots, and on failure reset
alarm_handled_minute to the sentinel -1. -/
def alarm_face_wants_background_task (now : WatchDateTime) (s : AlarmState) :
    Bool × AlarmState :=
  if s.alarm_handled_minute = (now.minute : Int) then (false, s)
  else
    match scanAux now ALARM_ALARMS 0
        { s with alarm_handled_minute := (now.minute : Int) } with
    | (true, s2) => (true, s2)
    | (false, s2) => (false, { s2 with alarm_handled_minute := -1 })

/-- The event vocabulary delivered to alarm_face_loop (movement.h event
types used by the face). -/
inductive MovementEventType where
  | activate
  | tick
  | light_button_down
  | light_button_up
  | light_long_press
  | alarm_button_up
  | alarm_long_press
  | background_task
  | mode_button_up
  | timeout
  | low_energy_update
deriving DecidableEq, Repr

/-- The state mutation performed by alarm_face_loop for one event.  Display,
LED, buzzer and face-navigation side effects are host calls and are not part
of the store; the function returns the mutated store (the C function also
returns true for every event). -/
def alarm_face_loop (ev : MovementEventType) (s : AlarmState) : AlarmState :=
  match ev with
  | .activate => s
  | .tick => s
  | .light_button_down => s
  | .light_button_up =>
    if s.is_setting = false then
      { s with is_setting := true, setting_state := 0 }
    else
      let s2 := { s with setting_state := s.setting_state + 1 }
      if ALARM_SETTING_STATES ≤ s2.setting_state then
        { s2 with is_setting := false }
      else s2
  | .light_long_press =>
    if s.is_setting = true then { s with is_setting := false } else s
  | .alarm_button_up =>
    if s.is_setting = false then
      { s with alarm_idx := nextIdx s.alarm_idx }
    else
      let s2 :=
        match s.setting_state with
        | 0 => { s with alarm_idx := nextIdx s.alarm_idx }
        | 1 => modifySlot s (fun a => { a with day := (a.day + 1) % ALARM_DAY_STATES })
        | 2 => modifySlot s (fun a => { a with hour := (a.hour + 1) % 24 })
        | 3 => modifySlot s (fun a => { a with minute := (a.minute + 1) % 60 })
        | 4 => modifySlot s (fun a => { a with pitch := (a.pitch + 1) % 3 })
        | 5 => modifySlot s (fun a => { a with beeps := (a.beeps + 1) % ALARM_MAX_BEEP_ROUNDS })
        | _ => s
      if 0 < s.setting_state then
        modifySlot s2 (fun a => { a with enabled := true })
      else s2
  | .alarm_long_press =>
    if s.is_setting = false then
      modifySlot s (fun a => { a with enabled := !a.enabled })
    else
      let s2 :=
        match s.setting_state with
        | 2 => modifySlot s (fun a => { a with hour := ((a.hour / 12) * 12 + 12) % 24 })
        | 3 => modifySlot s (fun a => { a with minute := ((a.minute / 15) * 15 + 15) % 60 })
        | _ => s
      if 0 < s.setting_state then
        modifySlot s2 (fun a => { a with enabled := true })
      else s2
  | .background_task => s
  | .mode_button_up => s
  | .timeout => s
  | .low_energy_update => s

/-- The store produced by alarm_face_setup: zero-initialised, then every
slot defaulted to day := EACH_DAY, beeps := 5, pitch := 1, and
alarm_handled_minute := -1. -/
def alarm_face_setup : AlarmState :=
  { alarm := fun _ =>
      { day := ALARM_DAY_EACH_DAY, hour := 0, minute := 0,
        beeps := 5, pitch := 1, enabled := false },
    alarm_idx := ⟨0, by decide⟩,
    alarm_playing_idx := ⟨0, by decide⟩,
    alarm_handled_minute := -1,
    is_setting := false,
    setting_state := 0 }

/-- An operation on the store: either one event through alarm_face_loop or
one call of the trigger evaluator. -/
inductive AlarmOp where
  | ev : MovementEventType → AlarmOp
  | bg : WatchDateTime → AlarmOp
deriving DecidableEq

/-- Apply one operation to the store. -/
def applyOp (op : AlarmOp) (s : AlarmState) : AlarmState :=
  match op with
  | .ev e => alarm_face_loop e s
  | .bg now => (alarm_face_wants_background_task now s).2

/-- The day-string table _dow_strings of alarm_face.c: entry 0 is the face
label shown in normal mode, entries 1..11 are the day-pattern
abbreviations (total, with a dummy default outside the table; the code
only indexes 0..11). -/
def _dow_strings : Nat → List Char
  | 0 => ['A', 'L']
  | 1 => ['M', 'O']
  | 2 => ['T', 'U']
  | 3 => ['W', 'E']
  | 4 => ['T', 'H']
  | 5 => ['F', 'R']
  | 6 => ['S', 'A']
  | 7 => ['S', 'O']
  | 8 => ['E', 'D']
  | 9 => ['1', 't']
  | 10 => ['M', 'F']
  | 11 => ['W', 'N']
  | _ => [' ', ' ']

/-- The per-stage first blink position table _blink_idx (entries 0..5 of the
C array; the code only indexes 0..5). -/
def _blink_idx : Nat → Nat
  | 0 => 2
  | 1 => 0
  | 2 => 4
  | 3 => 6
  | 4 => 8
  | _ => 9

/-- The per-stage second blink position table _blink_idx2. -/
def _blink_idx2 : Nat → Nat
  | 0 => 3
  | 1 => 1
  | 2 => 5
  | 3 => 7
  | 4 => 8
  | _ => 9

/-- Rendering of a %2d field (space-padded, two characters for the values
0..99 the face prints there). -/
def sprint2d (n : Nat) : List Char :=
  if n < 10 then [' ', Nat.digitChar n]
  else [Nat.digitChar (n / 10), Nat.digitChar (n % 10)]

/-- Rendering of a %02d field (zero-padded, two characters for the values
0..99 the face prints there). -/
def sprint02d (n : Nat) : List Char :=
  [Nat.digitChar (n / 10), Nat.digitChar (n % 10)]

/-- The observable outputs of _alarm_face_draw that the store determines:
the ten-character display buffer, the PM indicator command (none when the
clock is in 24h mode and the indicator is left untouched), and the bell
indicator.  The pitch-level pixel bar is a further display side effect not
modelled here. -/
structure DrawOut where
  buf : List Char
  pm : Option Bool
  bell : Bool
deriving DecidableEq, Repr

/-- The render function _alarm_face_draw.  Buffer layout
[day-label 0..1][slot 2..3][hour 4..5][minute 6..7][space 8][beeps 9]; in
normal mode the beep-round character (positions _blink_idx[5] and
_blink_idx2[5], both 9) is blanked; in setting mode the two characters of
the edited field are blanked on odd blink phases.  In 12h mode the hour is
reduced by 12 and the PM indicator set exactly when hour > 12, else the PM
indicator is cleared. -/
def _alarm_face_draw (clock_mode_24h : Bool) (s : AlarmState) (subsecond : Nat) :
    DrawOut :=
  let i : Nat := if s.is_setting = true then (s.alarm s.alarm_idx).day + 1 else 0
  let h0 := (s.alarm s.alarm_idx).hour
  let pm : Option Bool :=
    if clock_mode_24h = false then some (decide (12 < h0)) else none
  let h := if clock_mode_24h = false ∧ 12 < h0 then h0 - 12 else h0
  let buf :=
    _dow_strings i ++ (sprint2d (s.alarm_idx.val + 1) ++ (sprint2d h ++
      (sprint02d (s.alarm s.alarm_idx).minute ++ ([' '] ++
      [Nat.digitChar ((s.alarm s.alarm_idx).beeps + 1)]))))
  let buf :=
    if s.is_setting = false then (buf.set (_blink_idx 5) ' ').set (_blink_idx2 5) ' '
    else buf
  let buf :=
    if s.is_setting = true ∧ subsecond % 2 ≠ 0 then
      (buf.set (_blink_idx s.setting_state) ' ').set (_blink_idx2 s.setting_state) ' '
    else buf
  { buf := buf, pm := pm, bell := (s.alarm s.alarm_idx).enabled }

/-- An enabled slot matches the current hour and minute (the condition under
which the scan loop latches alarm_playing_idx, before the day checks). -/
abbrev timeMatches (now : WatchDateTime) (a : AlarmSlot) : Prop :=
  a.enabled = true ∧ a.minute = now.minute ∧ a.hour = now.hour

/-- The day pattern of a slot matches the current date. -/
abbrev dayMatches (now : WatchDateTime) (d : Nat) : Prop :=
  d = ALARM_DAY_EACH_DAY ∨ d = ALARM_DAY_ONE_TIME ∨ d = _get_weekday_idx now ∨
    (d = ALARM_DAY_WORKDAY ∧ _get_weekday_idx now < 5) ∨
    (d = ALARM_DAY_WEEKEND ∧ 5 ≤ _get_weekday_idx now)

/-- A slot fully matches the current time: the scan loop stops at the first
slot satisfying this and reports a trigger. -/
abbrev slotMatches (now : WatchDateTime) (a : AlarmSlot) : Prop :=
  timeMatches now a ∧ dayMatches now a.day

/-- Gregorian leap-year rule (reference definition for checking the
weekday computation). -/
abbrev isLeapYear (y : Nat) : Prop := (y % 4 = 0 ∧ ¬ y % 100 = 0) ∨ y % 400 = 0

/-- Number of days of month m (1..12) of year y, reference definition. -/
def daysInMonth (y m : Nat) : Nat :=
  if m = 2 then (if isLeapYear y then 29 else 28)
  else if m = 4 ∨ m = 6 ∨ m = 9 ∨ m = 11 then 30
  else 31

/-- Days of year y that precede the first day of month m, reference
definition (sum of the month lengths before m). -/
def daysBeforeMonth (y m : Nat) : Nat :=
  (List.range (m - 1)).foldl (fun acc k => acc + daysInMonth y (k + 1)) 0

/-- Days from 2020-01-01 to the date y-m-d (reference day count: full years
since 2020, plus full months of year y, plus the day of month). -/
def daysFrom2020 (y m d : Nat) : Nat :=
  (List.range (y - 2020)).foldl
      (fun acc k => acc + (if isLeapYear (2020 + k) then 366 else 365)) 0
    + daysBeforeMonth y m + (d - 1)

/-- Reference Gregorian weekday with 0 = Monday .. 6 = Sunday, anchored at
2020-01-01, which was a Wednesday (index 2). -/
def gregorianWeekday (y m d : Nat) : Nat := (daysFrom2020 y m d + 2) % 7

/-- Closed form for the days contributed by n full years starting at 2020
(valid while no 100-year exception occurs, i.e. up to 2099): every fourth
year starting with 2020 itself is a leap year. -/
def yearDaysC (n : Nat) : Nat := 365 * n + (n + 3) / 4

/-- Cumulative common-year day counts before each month. -/
def monthTable : Nat → Nat
  | 1 => 0
  | 2 => 31
  | 3 => 59
  | 4 => 90
  | 5 => 120
  | 6 => 151
  | 7 => 181
  | 8 => 212
  | 9 => 243
  | 10 => 273
  | 11 => 304
  | 12 => 334
  | _ => 0

/-- Closed form of daysBeforeMonth: the common-year table plus one for
March onwards in a leap year. -/
def monthDaysC (y m : Nat) : Nat :=
  monthTable m + (if 3 ≤ m ∧ isLeapYear y then 1 else 0)

/-- Monday 2024-01-01 at 08:30, a test instant. -/
def mondayNow : WatchDateTime := ⟨4, 1, 1, 8, 30⟩

/-- Monday 2024-01-01 at 00:00, a test instant. -/
def midnightNow : WatchDateTime := ⟨4, 1, 1, 0, 0⟩

/-- Fixture: slot 0 is enabled for Tuesdays at 08:30 (so its hour and
minute match mondayNow but its day pattern does not);
alarm_playing_idx starts at 5. -/
def dayMismatchState : AlarmState :=
  { alarm_face_setup with
      alarm := setSlot alarm_face_setup.alarm ⟨0, by decide⟩
        { day := 1, hour := 8, minute := 30, beeps := 5, pitch := 1, enabled := true },
      alarm_playing_idx := ⟨5, by decide⟩ }

/-- Fixture: slot 2 is an enabled one-time alarm for 08:30. -/
def oneTimeState : AlarmState :=
  { alarm_face_setup with
      alarm := setSlot alarm_face_setup.alarm ⟨2, by decide⟩
        { day := 8, hour := 8, minute := 30, beeps := 4, pitch := 2, enabled := true } }

/-- Fixture: slots 1 and 4 are both enabled every-day alarms for 08:30. -/
def twoMatchState : AlarmState :=
  { alarm_face_setup with
      alarm := setSlot
        (setSlot alarm_face_setup.alarm ⟨1, by decide⟩
          { day := 7, hour := 8, minute := 30, beeps := 5, pitch := 1, enabled := true })
        ⟨4, by decide⟩
        { day := 7, hour := 8, minute := 30, beeps := 5, pitch := 1, enabled := true } }

/-- Fixture: setting mode, minute stage, with the selected slot 0 at
minute 50. -/
def minute50State : AlarmState :=
  { alarm_face_setup with
      is_setting := true, setting_state := 3,
      alarm := setSlot alarm_face_setup.alarm ⟨0, by decide⟩
        { day := 7, hour := 0, minute := 50, beeps := 5, pitch := 1, enabled := true } }

/-- Fixture: setting mode, hour stage, with the selected slot 0 at hour 7. -/
def hour7State : AlarmState :=
  { alarm_face_setup with
      is_setting := true, setting_state := 2,
      alarm := setSlot alarm_face_setup.alarm ⟨0, by decide⟩
        { day := 7, hour := 7, minute := 0, beeps := 5, pitch := 1, enabled := true } }

/-- Event trace that, from the fresh store, enters setting mode, advances
to the day stage, turns slot 0 into an enabled one-time alarm at 00:00, and
returns to normal mode. -/
def oneTimeTraceOps : List AlarmOp :=
  [AlarmOp.ev MovementEventType.light_button_up,
   AlarmOp.ev MovementEventType.light_button_up,
   AlarmOp.ev MovementEventType.alarm_button_up,
   AlarmOp.ev MovementEventType.light_long_press]

/-- The store reached by oneTimeTraceOps from the fresh store. -/
def oneTimeArmedState : AlarmState :=
  oneTimeTraceOps.foldl (fun s op => applyOp op s) alarm_face_setup

theorem setSlot_same (al : Fin ALARM_ALARMS → AlarmSlot) (j : Fin ALARM_ALARMS)
    (v : AlarmSlot) : setSlot al j v j = v := by
  simp [setSlot]

theorem setSlot_ne (al : Fin ALARM_ALARMS → AlarmSlot) (j k : Fin ALARM_ALARMS)
    (v : AlarmSlot) (h : k ≠ j) : setSlot al j v k = al k := by
  simp [setSlot, h]

theorem weekday_lt (dt : WatchDateTime) : _get_weekday_idx dt < 7 :=
  Nat.mod_lt _ (by omega)

theorem scanAux_handled (now : WatchDateTime) :
    ∀ (n i : Nat) (s : AlarmState),
      (scanAux now n i s).2.alarm_handled_minute = s.alarm_handled_minute := by
  intro n
  induction n with
  | zero => intro i s; rfl
  | succ n ih =>
    intro i s
    simp only [scanAux]
    repeat' split
    all_goals first | rfl | exact ih (i + 1) _

theorem scanAux_no_time (now : WatchDateTime) :
    ∀ (n i : Nat) (s : AlarmState),
      (∀ k : Fin ALARM_ALARMS, i ≤ k.val → ¬ timeMatches now (s.alarm k)) →
      scanAux now n i s = (false, s) := by
  intro n
  induction n with
  | zero => intro i s _; rfl
  | succ n ih =>
    intro i s hno
    simp only [scanAux]
    split
    next h =>
      split
      next h1 =>
        split
        next h2 =>
          split
          next h3 => exact absurd ⟨h1, h2, h3⟩ (hno ⟨i, h⟩ (Nat.le_refl i))
          next h3 => exact ih (i + 1) s (fun k hk => hno k (by omega))
        next h2 => exact ih (i + 1) s (fun k hk => hno k (by omega))
      next h1 => exact ih (i + 1) s (fun k hk => hno k (by omega))
    next h => rfl

theorem scanAux_no_match (now : WatchDateTime) :
    ∀ (n i : Nat) (s : AlarmState),
      (∀ k : Fin ALARM_ALARMS, i ≤ k.val → ¬ slotMatches now (s.alarm k)) →
      ∃ p, scanAux now n i s = (false, { s with alarm_playing_idx := p }) := by
  intro n
  induction n with
  | zero => intro i s _; exact ⟨s.alarm_playing_idx, rfl⟩
  | succ n ih =>
    intro i s hno
    simp only [scanAux]
    split
    next h =>
      split
      next h1 =>
        split
        next h2 =>
          split
          next h3 =>
            split
            next h4 => exact absurd ⟨⟨h1, h2, h3⟩, Or.inl h4⟩ (hno ⟨i, h⟩ (Nat.le_refl i))
            next h4 =>
              split
              next h5 => exact absurd ⟨⟨h1, h2, h3⟩, Or.inr (Or.inl h5)⟩ (hno ⟨i, h⟩ (Nat.le_refl i))
              next h5 =>
                split
                next h6 =>
                  exact absurd ⟨⟨h1, h2, h3⟩, Or.inr (Or.inr (Or.inl h6))⟩ (hno ⟨i, h⟩ (Nat.le_refl i))
                next h6 =>
                  split
                  next h7 =>
                    exact absurd ⟨⟨h1, h2, h3⟩, Or.inr (Or.inr (Or.inr (Or.inl h7)))⟩
                      (hno ⟨i, h⟩ (Nat.le_refl i))
                  next h7 =>
                    split
                    next h8 =>
                      exact absurd ⟨⟨h1, h2, h3⟩, Or.inr (Or.inr (Or.inr (Or.inr h8)))⟩
                        (hno ⟨i, h⟩ (Nat.le_refl i))
                    next h8 =>
                      exact ih (i + 1) { s with alarm_playing_idx := ⟨i, h⟩ }
                        (fun k hk => hno k (by omega))
          next h3 => exact ih (i + 1) s (fun k hk => hno k (by omega))
        next h2 => exact ih (i + 1) s (fun k hk => hno k (by omega))
      next h1 => exact ih (i + 1) s (fun k hk => hno k (by omega))
    next h => exact ⟨s.alarm_playing_idx, rfl⟩

/-- The state the scan loop returns when it stops at the fully matching slot
j: alarm_playing_idx is latched to j, and the slot is erased exactly when it
is a one-time alarm. -/
def matchResultState (s : AlarmState) (j : Fin ALARM_ALARMS) : AlarmState :=
  if (s.alarm j).day = ALARM_DAY_ONE_TIME then
    { s with alarm_playing_idx := j, alarm := setSlot s.alarm j (eraseSlot (s.alarm j)) }
  else
    { s with alarm_playing_idx := j }

theorem scanAux_first (now : WatchDateTime) :
    ∀ (n i : Nat) (s : AlarmState) (j : Fin ALARM_ALARMS),
      i ≤ j.val → j.val < i + n →
      slotMatches now (s.alarm j) →
      (∀ k : Fin ALARM_ALARMS, i ≤ k.val → k.val < j.val → ¬ slotMatches now (s.alarm k)) →
      scanAux now n i s = (true, matchResultState s j) := by
  intro n
  induction n with
  | zero =>
    intro i s j hij hlt _ _
    omega
  | succ n ih =>
    intro i s j hij hlt hmatch hlow
    have hi : i < ALARM_ALARMS := lt_of_le_of_lt hij j.isLt
    simp only [scanAux]
    rw [dif_pos hi]
    rcases Nat.lt_or_ge i j.val with hlt2 | hge
    · have hne : ¬ slotMatches now (s.alarm ⟨i, hi⟩) := hlow ⟨i, hi⟩ (Nat.le_refl i) hlt2
      by_cases h1 : (s.alarm ⟨i, hi⟩).enabled = true
      · rw [if_pos h1]
        by_cases h2 : (s.alarm ⟨i, hi⟩).minute = now.minute
        · rw [if_pos h2]
          by_cases h3 : (s.alarm ⟨i, hi⟩).hour = now.hour
          · rw [if_pos h3]
            have hd : ¬ dayMatches now ((s.alarm ⟨i, hi⟩).day) :=
              fun hdm => hne ⟨⟨h1, h2, h3⟩, hdm⟩
            rw [if_neg (fun c => hd (Or.inl c)),
                if_neg (fun c => hd (Or.inr (Or.inl c))),
                if_neg (fun c => hd (Or.inr (Or.inr (Or.inl c)))),
                if_neg (fun c => hd (Or.inr (Or.inr (Or.inr (Or.inl c))))),
                if_neg (fun c => hd (Or.inr (Or.inr (Or.inr (Or.inr c)))))]
            exact ih (i + 1) { s with alarm_playing_idx := ⟨i, hi⟩ } j
              (by omega) (by omega) hmatch (fun k hk1 hk2 => hlow k (by omega) hk2)
          · rw [if_neg h3]
            exact ih (i + 1) s j (by omega) (by omega) hmatch
              (fun k hk1 hk2 => hlow k (by omega) hk2)
        · rw [if_neg h2]
          exact ih (i + 1) s j (by omega) (by omega) hmatch
            (fun k hk1 hk2 => hlow k (by omega) hk2)
      · rw [if_neg h1]
        exact ih (i + 1) s j (by omega) (by omega) hmatch
          (fun k hk1 hk2 => hlow k (by omega) hk2)
    · have hije : (⟨i, hi⟩ : Fin ALARM_ALARMS) = j := Fin.ext (show i = j.val by omega)
      obtain ⟨⟨h1, h2, h3⟩, hdm⟩ := hmatch
      rw [hije, if_pos h1, if_pos h2, if_pos h3]
      have hw7 : _get_weekday_idx now ≠ 7 := by have := weekday_lt now; omega
      have hw8 : _get_weekday_idx now ≠ 8 := by have := weekday_lt now; omega
      have hw9 : _get_weekday_idx now ≠ 9 := by have := weekday_lt now; omega
      have hw10 : _get_weekday_idx now ≠ 10 := by have := weekday_lt now; omega
      rcases hdm with h4 | h5 | h6 | ⟨h7, h7w⟩ | ⟨h8, h8w⟩
      · rw [if_pos h4]
        simp [matchResultState, h4]
      · rw [if_neg (by rw [h5]; decide), if_pos h5]
        simp [matchResultState, h5]
      · rw [h6]
        rw [if_neg hw7, if_neg hw8,
            if_pos (rfl : _get_weekday_idx now = _get_weekday_idx now)]
        unfold matchResultState
        rw [h6, if_neg hw8]
      · rw [h7]
        rw [if_neg (by decide), if_neg (by decide), if_neg (fun c => hw9 c.symm),
            if_pos (⟨rfl, h7w⟩ : ALARM_DAY_WORKDAY = ALARM_DAY_WORKDAY ∧ _get_weekday_idx now < 5)]
        unfold matchResultState
        rw [h7, if_neg (by decide)]
      · rw [h8]
        rw [if_neg (by decide), if_neg (by decide), if_neg (fun c => hw10 c.symm),
            if_neg (fun c => absurd c.1 (by decide)),
            if_pos (⟨rfl, h8w⟩ : ALARM_DAY_WEEKEND = ALARM_DAY_WEEKEND ∧ 5 ≤ _get_weekday_idx now)]
        unfold matchResultState
        rw [h8, if_neg (by decide)]

theorem scanAux_false_no_match (now : WatchDateTime) :
    ∀ (n i : Nat) (s : AlarmState),
      (scanAux now n i s).1 = false →
      ∀ k : Fin ALARM_ALARMS, i ≤ k.val → k.val < i + n → ¬ slotMatches now (s.alarm k) := by
  intro n
  induction n with
  | zero => intro i s _ k hk1 hk2; omega
  | succ n ih =>
    intro i s hf k hk1 hk2
    simp only [scanAux] at hf
    by_cases hi : i < ALARM_ALARMS
    · rw [dif_pos hi] at hf
      by_cases h1 : (s.alarm ⟨i, hi⟩).enabled = true
      · rw [if_pos h1] at hf
        by_cases h2 : (s.alarm ⟨i, hi⟩).minute = now.minute
        · rw [if_pos h2] at hf
          by_cases h3 : (s.alarm ⟨i, hi⟩).hour = now.hour
          · rw [if_pos h3] at hf
            by_cases h4 : (s.alarm ⟨i, hi⟩).day = ALARM_DAY_EACH_DAY
            · rw [if_pos h4] at hf; simp at hf
            · rw [if_neg h4] at hf
              by_cases h5 : (s.alarm ⟨i, hi⟩).day = ALARM_DAY_ONE_TIME
              · rw [if_pos h5] at hf; simp at hf
              · rw [if_neg h5] at hf
                by_cases h6 : (s.alarm ⟨i, hi⟩).day = _get_weekday_idx now
                · rw [if_pos h6] at hf; simp at hf
                · rw [if_neg h6] at hf
                  by_cases h7 : (s.alarm ⟨i, hi⟩).day = ALARM_DAY_WORKDAY ∧ _get_weekday_idx now < 5
                  · rw [if_pos h7] at hf; simp at hf
                  · rw [if_neg h7] at hf
                    by_cases h8 : (s.alarm ⟨i, hi⟩).day = ALARM_DAY_WEEKEND ∧ 5 ≤ _get_weekday_idx now
                    · rw [if_pos h8] at hf; simp at hf
                    · rw [if_neg h8] at hf
                      rcases Nat.eq_or_lt_of_le hk1 with he | hlt
                      · have hk : k = ⟨i, hi⟩ := Fin.ext he.symm
                        rw [hk]
                        rintro ⟨⟨e1, e2, e3⟩, hdm⟩
                        rcases hdm with c | c | c | c | c
                        · exact h4 c
                        · exact h5 c
                        · exact h6 c
                        · exact h7 c
                        · exact h8 c
                      · exact ih (i + 1) { s with alarm_playing_idx := ⟨i, hi⟩ } hf k hlt (by omega)
          · rw [if_neg h3] at hf
            rcases Nat.eq_or_lt_of_le hk1 with he | hlt
            · have hk : k = ⟨i, hi⟩ := Fin.ext he.symm
              rw [hk]
              rintro ⟨⟨e1, e2, e3⟩, hdm⟩
              exact h3 e3
            · exact ih (i + 1) s hf k hlt (by omega)
        · rw [if_neg h2] at hf
          rcases Nat.eq_or_lt_of_le hk1 with he | hlt
          · have hk : k = ⟨i, hi⟩ := Fin.ext he.symm
            rw [hk]
            rintro ⟨⟨e1, e2, e3⟩, hdm⟩
            exact h2 e2
          · exact ih (i + 1) s hf k hlt (by omega)
      · rw [if_neg h1] at hf
        rcases Nat.eq_or_lt_of_le hk1 with he | hlt
        · have hk : k = ⟨i, hi⟩ := Fin.ext he.symm
          rw [hk]
          rintro ⟨⟨e1, e2, e3⟩, hdm⟩
          exact h1 e1
        · exact ih (i + 1) s hf k hlt (by omega)
    · have := k.isLt
      omega

theorem scanAux_enabled_change (now : WatchDateTime) :
    ∀ (n i : Nat) (s : AlarmState) (k : Fin ALARM_ALARMS),
      ((scanAux now n i s).2.alarm k).enabled ≠ (s.alarm k).enabled →
      (s.alarm k).day = ALARM_DAY_ONE_TIME := by
  intro n
  induction n with
  | zero => intro i s k h; exact absurd rfl h
  | succ n ih =>
    intro i s k h
    simp only [scanAux] at h
    by_cases hi : i < ALARM_ALARMS
    · rw [dif_pos hi] at h
      by_cases h1 : (s.alarm ⟨i, hi⟩).enabled = true
      · rw [if_pos h1] at h
        by_cases h2 : (s.alarm ⟨i, hi⟩).minute = now.minute
        · rw [if_pos h2] at h
          by_cases h3 : (s.alarm ⟨i, hi⟩).hour = now.hour
          · rw [if_pos h3] at h
            by_cases h4 : (s.alarm ⟨i, hi⟩).day = ALARM_DAY_EACH_DAY
            · rw [if_pos h4] at h; exact absurd rfl h
            · rw [if_neg h4] at h
              by_cases h5 : (s.alarm ⟨i, hi⟩).day = ALARM_DAY_ONE_TIME
              · rw [if_pos h5] at h
                by_cases hk : k = ⟨i, hi⟩
                · rw [hk]; exact h5
                · exact absurd (congrArg AlarmSlot.enabled
                    (setSlot_ne s.alarm ⟨i, hi⟩ k (eraseSlot (s.alarm ⟨i, hi⟩)) hk)) h
              · rw [if_neg h5] at h
                by_cases h6 : (s.alarm ⟨i, hi⟩).day = _get_weekday_idx now
                · rw [if_pos h6] at h; exact absurd rfl h
                · rw [if_neg h6] at h
                  by_cases h7 : (s.alarm ⟨i, hi⟩).day = ALARM_DAY_WORKDAY ∧ _get_weekday_idx now < 5
                  · rw [if_pos h7] at h; exact absurd rfl h
                  · rw [if_neg h7] at h
                    by_cases h8 : (s.alarm ⟨i, hi⟩).day = ALARM_DAY_WEEKEND ∧ 5 ≤ _get_weekday_idx now
                    · rw [if_pos h8] at h; exact absurd rfl h
                    · rw [if_neg h8] at h
                      exact ih (i + 1) { s with alarm_playing_idx := ⟨i, hi⟩ } k h
          · rw [if_neg h3] at h; exact ih (i + 1) s k h
        · rw [if_neg h2] at h; exact ih (i + 1) s k h
      · rw [if_neg h1] at h; exact ih (i + 1) s k h
    · rw [dif_neg hi] at h; exact absurd rfl h

theorem matchResultState_playing (s : AlarmState) (j : Fin ALARM_ALARMS) :
    (matchResultState s j).alarm_playing_idx = j := by
  unfold matchResultState
  split
  · rfl
  · rfl

theorem matchResultState_handled (s : AlarmState) (j : Fin ALARM_ALARMS) :
    (matchResultState s j).alarm_handled_minute = s.alarm_handled_minute := by
  unfold matchResultState
  split
  · rfl
  · rfl

theorem matchResultState_alarm_self (s : AlarmState) (j : Fin ALARM_ALARMS) :
    (matchResultState s j).alarm j =
      (if (s.alarm j).day = ALARM_DAY_ONE_TIME then eraseSlot (s.alarm j) else s.alarm j) := by
  unfold matchResultState
  by_cases h : (s.alarm j).day = ALARM_DAY_ONE_TIME
  · rw [if_pos h, if_pos h]
    exact setSlot_same s.alarm j (eraseSlot (s.alarm j))
  · rw [if_neg h, if_neg h]

theorem matchResultState_alarm_ne (s : AlarmState) (j k : Fin ALARM_ALARMS)
    (h : k ≠ j) : (matchResultState s j).alarm k = s.alarm k := by
  unfold matchResultState
  split
  · exact setSlot_ne s.alarm j k (eraseSlot (s.alarm j)) h
  · rfl

theorem eval_true_of_first (now : WatchDateTime) (s : AlarmState) (j : Fin ALARM_ALARMS)
    (hhandled : s.alarm_handled_minute ≠ (now.minute : Int))
    (hmatch : slotMatches now (s.alarm j))
    (hlow : ∀ k : Fin ALARM_ALARMS, k.val < j.val → ¬ slotMatches now (s.alarm k)) :
    alarm_face_wants_background_task now s =
      (true, matchResultState { s with alarm_handled_minute := (now.minute : Int) } j) := by
  have hscan := scanAux_first now ALARM_ALARMS 0
      { s with alarm_handled_minute := (now.minute : Int) } j (Nat.zero_le _)
      (by have := j.isLt; omega) hmatch (fun k _ hk2 => hlow k hk2)
  unfold alarm_face_wants_background_task
  rw [if_neg hhandled, hscan]

theorem eval_false_of_none (now : WatchDateTime) (s : AlarmState)
    (hhandled : s.alarm_handled_minute ≠ (now.minute : Int))
    (hnone : ∀ k : Fin ALARM_ALARMS, ¬ slotMatches now (s.alarm k)) :
    ∃ p, alarm_face_wants_background_task now s =
      (false, { s with alarm_playing_idx := p, alarm_handled_minute := -1 }) := by
  obtain ⟨p, hp⟩ := scanAux_no_match now ALARM_ALARMS 0
    { s with alarm_handled_minute := (now.minute : Int) } (fun k _ => hnone k)
  refine ⟨p, ?_⟩
  unfold alarm_face_wants_background_task
  rw [if_neg hhandled, hp]

/-- C1: a one-time alarm slot i (day = ONE_TIME, hour and minute equal to
the current time, enabled) fires when the trigger evaluator is called with
alarm_handled_minute different from the current minute and no lower-index
slot fully matches: the call returns true and, in the same call, slot i is
reset exactly to day = EACH_DAY, hour = 0, minute = 0, enabled = false
(with beeps and pitch untouched), never left partially updated. -/
theorem one_time_alarm_fires_and_resets (now : WatchDateTime) (s : AlarmState)
    (i : Fin ALARM_ALARMS) (b p : Nat)
    (hslot : s.alarm i = ⟨ALARM_DAY_ONE_TIME, now.hour, now.minute, b, p, true⟩)
    (hhandled : s.alarm_handled_minute ≠ (now.minute : Int))
    (hlow : ∀ k : Fin ALARM_ALARMS, k.val < i.val → ¬ slotMatches now (s.alarm k)) :
    (alarm_face_wants_background_task now s).1 = true ∧
    (alarm_face_wants_background_task now s).2.alarm i =
      ⟨ALARM_DAY_EACH_DAY, 0, 0, b, p, false⟩ := by
  have hmatch : slotMatches now (s.alarm i) := by
    rw [hslot]
    exact ⟨⟨rfl, rfl, rfl⟩, Or.inr (Or.inl rfl)⟩
  rw [eval_true_of_first now s i hhandled hmatch hlow]
  refine ⟨rfl, ?_⟩
  rw [matchResultState_alarm_self]
  have hslot1 : ({ s with alarm_handled_minute := (now.minute : Int) } : AlarmState).alarm i =
      ⟨ALARM_DAY_ONE_TIME, now.hour, now.minute, b, p, true⟩ := hslot
  rw [hslot1]
  simp [eraseSlot]

/-- Witness for one_time_alarm_fires_and_resets: slot 2 of oneTimeState
fires at Monday 2024-01-01 08:30 and is erased in the same call. -/
theorem one_time_alarm_fires_and_resets_witness :
    (oneTimeState.alarm_handled_minute ≠ (mondayNow.minute : Int)) ∧
    ((alarm_face_wants_background_task mondayNow oneTimeState).1 = true ∧
      (alarm_face_wants_background_task mondayNow oneTimeState).2.alarm ⟨2, by decide⟩ =
        ⟨ALARM_DAY_EACH_DAY, 0, 0, 4, 2, false⟩) :=
  ⟨by decide, one_time_alarm_fires_and_resets mondayNow oneTimeState ⟨2, by decide⟩ 4 2
    (by decide) (by decide) (by decide)⟩

/-- C2 counterexample: at Monday 2024-01-01 08:30 with slot 0 enabled for
Tuesday 08:30 (hour and minute match, day does not), the evaluator returns
false and nevertheless overwrites alarm_playing_idx (5 before the call). -/
theorem playing_idx_written_on_false_return :
    (alarm_face_wants_background_task mondayNow dayMismatchState).1 = false ∧
    (alarm_face_wants_background_task mondayNow dayMismatchState).2.alarm_playing_idx ≠
      dayMismatchState.alarm_playing_idx := by decide

/-- C2 (amended): alarm_playing_idx is also written when an enabled slot
matches the current hour and minute but fails the day check, even though
the call returns false; if no enabled slot matches the current hour and
minute, the evaluator returns false and leaves alarm_playing_idx
unchanged. -/
theorem playing_idx_unchanged_when_no_time_match (now : WatchDateTime) (s : AlarmState)
    (hnone : ∀ k : Fin ALARM_ALARMS, ¬ timeMatches now (s.alarm k)) :
    (alarm_face_wants_background_task now s).1 = false ∧
    (alarm_face_wants_background_task now s).2.alarm_playing_idx = s.alarm_playing_idx := by
  by_cases hg : s.alarm_handled_minute = (now.minute : Int)
  · have h1 : alarm_face_wants_background_task now s = (false, s) := by
      unfold alarm_face_wants_background_task
      rw [if_pos hg]
    rw [h1]
    exact ⟨rfl, rfl⟩
  · have hs := scanAux_no_time now ALARM_ALARMS 0
      { s with alarm_handled_minute := (now.minute : Int) } (fun k _ => hnone k)
    have h1 : alarm_face_wants_background_task now s =
        (false, { s with alarm_handled_minute := -1 }) := by
      unfold alarm_face_wants_background_task
      rw [if_neg hg, hs]
    rw [h1]
    exact ⟨rfl, rfl⟩

/-- Witness for playing_idx_unchanged_when_no_time_match: at Monday
2024-01-01 00:00 no slot of dayMismatchState matches on hour and minute,
so the call returns false with alarm_playing_idx still 5. -/
theorem playing_idx_unchanged_when_no_time_match_witness :
    (∀ k : Fin ALARM_ALARMS, ¬ timeMatches midnightNow (dayMismatchState.alarm k)) ∧
    ((alarm_face_wants_background_task midnightNow dayMismatchState).1 = false ∧
      (alarm_face_wants_background_task midnightNow dayMismatchState).2.alarm_playing_idx =
        dayMismatchState.alarm_playing_idx) :=
  ⟨by decide, playing_idx_unchanged_when_no_time_match midnightNow dayMismatchState (by decide)⟩

/-- C3: calling the trigger evaluator twice in succession with the same
current time and no state change in between makes the second call return
false, whether or not the first call returned true. -/
theorem second_evaluation_same_minute_false (now : WatchDateTime) (s : AlarmState) :
    (alarm_face_wants_background_task now
      (alarm_face_wants_background_task now s).2).1 = false := by
  by_cases hg : s.alarm_handled_minute = (now.minute : Int)
  · have h1 : alarm_face_wants_background_task now s = (false, s) := by
      unfold alarm_face_wants_background_task
      rw [if_pos hg]
    rw [h1]
    show (alarm_face_wants_background_task now s).1 = false
    unfold alarm_face_wants_background_task
    rw [if_pos hg]
  · rcases hres : scanAux now ALARM_ALARMS 0
      { s with alarm_handled_minute := (now.minute : Int) } with ⟨b, s2⟩
    cases b
    · have h1 : alarm_face_wants_background_task now s =
          (false, { s2 with alarm_handled_minute := -1 }) := by
        unfold alarm_face_wants_background_task
        rw [if_neg hg, hres]
      have hnone : ∀ k : Fin ALARM_ALARMS,
          ¬ slotMatches now (({ s with alarm_handled_minute := (now.minute : Int) } : AlarmState).alarm k) := by
        intro k
        exact scanAux_false_no_match now ALARM_ALARMS 0 _ (by rw [hres]) k
          (Nat.zero_le _) (by have := k.isLt; omega)
      obtain ⟨p, hp⟩ := scanAux_no_match now ALARM_ALARMS 0
        { s with alarm_handled_minute := (now.minute : Int) } (fun k _ => hnone k)
      rw [hres] at hp
      have hs2 : s2 = { s with alarm_playing_idx := p, alarm_handled_minute := (now.minute : Int) } := congrArg Prod.snd hp
      rw [h1]
      have hg2 : ({ s2 with alarm_handled_minute := -1 } : AlarmState).alarm_handled_minute ≠
          (now.minute : Int) := by
        show (-1 : Int) ≠ (now.minute : Int)
        omega
      have hnone2 : ∀ k : Fin ALARM_ALARMS,
          ¬ slotMatches now (({ s2 with alarm_handled_minute := -1 } : AlarmState).alarm k) := by
        intro k
        show ¬ slotMatches now (s2.alarm k)
        rw [hs2]
        exact hnone k
      obtain ⟨q, hq⟩ := eval_false_of_none now
        { s2 with alarm_handled_minute := -1 } hg2 hnone2
      rw [hq]
    · have h1 : alarm_face_wants_background_task now s = (true, s2) := by
        unfold alarm_face_wants_background_task
        rw [if_neg hg, hres]
      rw [h1]
      have hh : s2.alarm_handled_minute = (now.minute : Int) := by
        have h2 := scanAux_handled now ALARM_ALARMS 0
          { s with alarm_handled_minute := (now.minute : Int) }
        rw [hres] at h2
        exact h2
      show (alarm_face_wants_background_task now s2).1 = false
      unfold alarm_face_wants_background_task
      rw [if_pos hh]

/-- C6: when exactly two distinct enabled slots i < j fully match the
current time and alarm_handled_minute differs from the current minute, the
evaluator returns true, alarm_playing_idx is latched to the lower index i,
and every slot other than i is untouched (the scan stops at i, so j is not
even erased when it is a one-time alarm). -/
theorem earliest_index_wins (now : WatchDateTime) (s : AlarmState)
    (i j : Fin ALARM_ALARMS) (hij : i < j)
    (hi : slotMatches now (s.alarm i)) (_hj : slotMatches now (s.alarm j))
    (honly : ∀ k : Fin ALARM_ALARMS, slotMatches now (s.alarm k) → k = i ∨ k = j)
    (hhandled : s.alarm_handled_minute ≠ (now.minute : Int)) :
    (alarm_face_wants_background_task now s).1 = true ∧
    (alarm_face_wants_background_task now s).2.alarm_playing_idx = i ∧
    ∀ k : Fin ALARM_ALARMS, k ≠ i →
      (alarm_face_wants_background_task now s).2.alarm k = s.alarm k := by
  have hijv : i.val < j.val := hij
  have hlow : ∀ k : Fin ALARM_ALARMS, k.val < i.val → ¬ slotMatches now (s.alarm k) := by
    intro k hk hm
    rcases honly k hm with e | e
    · rw [e] at hk
      omega
    · rw [e] at hk
      omega
  rw [eval_true_of_first now s i hhandled hi hlow]
  exact ⟨rfl, matchResultState_playing _ i, fun k hk => matchResultState_alarm_ne _ i k hk⟩

/-- Witness for earliest_index_wins: slots 1 and 4 of twoMatchState both
match Monday 2024-01-01 08:30; the call returns true with
alarm_playing_idx = 1 and every other slot unchanged. -/
theorem earliest_index_wins_witness :
    (twoMatchState.alarm_handled_minute ≠ (mondayNow.minute : Int) ∧
      slotMatches mondayNow (twoMatchState.alarm ⟨1, by decide⟩) ∧
      slotMatches mondayNow (twoMatchState.alarm ⟨4, by decide⟩)) ∧
    ((alarm_face_wants_background_task mondayNow twoMatchState).1 = true ∧
      (alarm_face_wants_background_task mondayNow twoMatchState).2.alarm_playing_idx =
        ⟨1, by decide⟩ ∧
      ∀ k : Fin ALARM_ALARMS, k ≠ ⟨1, by decide⟩ →
        (alarm_face_wants_background_task mondayNow twoMatchState).2.alarm k =
          twoMatchState.alarm k) :=
  ⟨by decide, earliest_index_wins mondayNow twoMatchState ⟨1, by decide⟩ ⟨4, by decide⟩
    (by decide) (by decide) (by decide) (by decide) (by decide)⟩

/-- C7: with alarm_handled_minute different from the current minute and no
enabled slot fully matching the current time, the trigger evaluator
returns false and leaves alarm_handled_minute at the sentinel -1, so a
later call in the same minute is evaluated afresh. -/
theorem no_match_returns_false_and_resets_sentinel (now : WatchDateTime) (s : AlarmState)
    (hhandled : s.alarm_handled_minute ≠ (now.minute : Int))
    (hnone : ∀ k : Fin ALARM_ALARMS, ¬ slotMatches now (s.alarm k)) :
    (alarm_face_wants_background_task now s).1 = false ∧
    (alarm_face_wants_background_task now s).2.alarm_handled_minute = -1 := by
  obtain ⟨p, hp⟩ := eval_false_of_none now s hhandled hnone
  rw [hp]
  exact ⟨rfl, rfl⟩

/-- Witness for no_match_returns_false_and_resets_sentinel: at Monday
2024-01-01 08:30 no slot of dayMismatchState fully matches (slot 0 is a
Tuesday alarm), so the call returns false with the sentinel restored. -/
theorem no_match_returns_false_and_resets_sentinel_witness :
    (dayMismatchState.alarm_handled_minute ≠ (mondayNow.minute : Int) ∧
      (∀ k : Fin ALARM_ALARMS, ¬ slotMatches mondayNow (dayMismatchState.alarm k))) ∧
    ((alarm_face_wants_background_task mondayNow dayMismatchState).1 = false ∧
      (alarm_face_wants_background_task mondayNow dayMismatchState).2.alarm_handled_minute = -1) :=
  ⟨by decide, no_match_returns_false_and_resets_sentinel mondayNow dayMismatchState
    (by decide) (by decide)⟩

/-- C4 counterexample: in setting stage 3 with the selected slot at minute
50, a primary-button long-press sets the minute to ((50/15)*15 + 15) % 60
= 0, not 5 as the claim asserts. -/
theorem minute_long_press_from_50_gives_0 :
    ((alarm_face_loop MovementEventType.alarm_long_press minute50State).alarm
        ⟨0, by decide⟩).minute = 0 ∧
    ((alarm_face_loop MovementEventType.alarm_long_press minute50State).alarm
        ⟨0, by decide⟩).minute ≠ 5 := by decide

/-- C4 (amended): for the stored hour h and minute m of the selected slot,
a primary-button long-press in setting stage 2 sets the hour to
((h/12)*12 + 12) % 24 (from 7 it gives 12, from 13 it gives 0), and in
setting stage 3 sets the minute to ((m/15)*15 + 15) % 60 — so a minute
long-press from 50 gives 0 (45 + 15 = 60 wraps to 0), not 5. -/
theorem long_press_rounding (s : AlarmState) (hset : s.is_setting = true) :
    (s.setting_state = 2 →
      ((alarm_face_loop MovementEventType.alarm_long_press s).alarm s.alarm_idx).hour =
        (((s.alarm s.alarm_idx).hour / 12) * 12 + 12) % 24) ∧
    (s.setting_state = 3 →
      ((alarm_face_loop MovementEventType.alarm_long_press s).alarm s.alarm_idx).minute =
        (((s.alarm s.alarm_idx).minute / 15) * 15 + 15) % 60) := by
  constructor
  · intro h2
    simp only [alarm_face_loop]
    rw [if_neg (show ¬(s.is_setting = false) by rw [hset]; decide)]
    rw [h2]
    simp [modifySlot, setSlot]
  · intro h3
    simp only [alarm_face_loop]
    rw [if_neg (show ¬(s.is_setting = false) by rw [hset]; decide)]
    rw [h3]
    simp [modifySlot, setSlot]

/-- Witness for long_press_rounding: in hour7State (stage 2, hour 7) the
long-press jumps the hour to 12. -/
theorem long_press_rounding_witness :
    (hour7State.is_setting = true ∧ hour7State.setting_state = 2) ∧
    ((alarm_face_loop MovementEventType.alarm_long_press hour7State).alarm
        hour7State.alarm_idx).hour =
      (((hour7State.alarm hour7State.alarm_idx).hour / 12) * 12 + 12) % 24 :=
  ⟨by decide, (long_press_rounding hour7State (by decide)).1 (by decide)⟩

/-- C9 counterexample: oneTimeArmedState is reached from the fresh store by
an explicit event trace, is in normal mode, and has slot 0 an enabled
one-time alarm; a trigger-evaluator call — an operation that is not the
primary-button long-press — flips the enabled flag of slot 0 from true to
false (the one-time erase). -/
theorem evaluator_call_disables_slot :
    oneTimeArmedState.is_setting = false ∧
    (oneTimeArmedState.alarm ⟨0, by decide⟩).enabled = true ∧
    ((applyOp (AlarmOp.bg midnightNow) oneTimeArmedState).alarm ⟨0, by decide⟩).enabled = false ∧
    AlarmOp.bg midnightNow ≠ AlarmOp.ev MovementEventType.alarm_long_press := by decide

/-- C9 (amended): in normal mode, the only operations that flip the enabled
flag of a slot from true to false are the primary-button long-press toggle
on the currently displayed slot and a trigger-evaluator call that erases
that slot as a fired one-time alarm (day = ONE_TIME). -/
theorem disable_only_toggle_or_one_time (s : AlarmState) (op : AlarmOp)
    (k : Fin ALARM_ALARMS)
    (hmode : s.is_setting = false)
    (hpre : (s.alarm k).enabled = true)
    (hpost : ((applyOp op s).alarm k).enabled = false) :
    (op = AlarmOp.ev MovementEventType.alarm_long_press ∧ k = s.alarm_idx) ∨
    (∃ now, op = AlarmOp.bg now ∧ (s.alarm k).day = ALARM_DAY_ONE_TIME) := by
  cases op with
  | ev e =>
    cases e with
    | activate =>
      simp only [applyOp, alarm_face_loop] at hpost
      rw [hpre] at hpost
      exact Bool.noConfusion hpost
    | tick =>
      simp only [applyOp, alarm_face_loop] at hpost
      rw [hpre] at hpost
      exact Bool.noConfusion hpost
    | light_button_down =>
      simp only [applyOp, alarm_face_loop] at hpost
      rw [hpre] at hpost
      exact Bool.noConfusion hpost
    | light_button_up =>
      simp only [applyOp, alarm_face_loop] at hpost
      rw [if_pos hmode] at hpost
      have hpost2 : (s.alarm k).enabled = false := hpost
      rw [hpre] at hpost2
      exact Bool.noConfusion hpost2
    | light_long_press =>
      simp only [applyOp, alarm_face_loop] at hpost
      rw [if_neg (show ¬(s.is_setting = true) by rw [hmode]; decide)] at hpost
      rw [hpre] at hpost
      exact Bool.noConfusion hpost
    | alarm_button_up =>
      simp only [applyOp, alarm_face_loop] at hpost
      rw [if_pos hmode] at hpost
      have hpost2 : (s.alarm k).enabled = false := hpost
      rw [hpre] at hpost2
      exact Bool.noConfusion hpost2
    | alarm_long_press =>
      by_cases hk : k = s.alarm_idx
      · exact Or.inl ⟨rfl, hk⟩
      · simp only [applyOp, alarm_face_loop, modifySlot] at hpost
        rw [if_pos hmode] at hpost
        have hpost2 : (setSlot s.alarm s.alarm_idx
            { s.alarm s.alarm_idx with
              enabled := !(s.alarm s.alarm_idx).enabled } k).enabled = false := hpost
        rw [setSlot_ne s.alarm s.alarm_idx k _ hk] at hpost2
        rw [hpre] at hpost2
        exact Bool.noConfusion hpost2
    | background_task =>
      simp only [applyOp, alarm_face_loop] at hpost
      rw [hpre] at hpost
      exact Bool.noConfusion hpost
    | mode_button_up =>
      simp only [applyOp, alarm_face_loop] at hpost
      rw [hpre] at hpost
      exact Bool.noConfusion hpost
    | timeout =>
      simp only [applyOp, alarm_face_loop] at hpost
      rw [hpre] at hpost
      exact Bool.noConfusion hpost
    | low_energy_update =>
      simp only [applyOp, alarm_face_loop] at hpost
      rw [hpre] at hpost
      exact Bool.noConfusion hpost
  | bg now =>
    refine Or.inr ⟨now, rfl, ?_⟩
    simp only [applyOp] at hpost
    unfold alarm_face_wants_background_task at hpost
    by_cases hg : s.alarm_handled_minute = (now.minute : Int)
    · rw [if_pos hg] at hpost
      have hpost2 : (s.alarm k).enabled = false := hpost
      rw [hpre] at hpost2
      exact Bool.noConfusion hpost2
    · rw [if_neg hg] at hpost
      rcases hres : scanAux now ALARM_ALARMS 0
        { s with alarm_handled_minute := (now.minute : Int) } with ⟨b, s2⟩
      rw [hres] at hpost
      cases b
      · have hpost2 : (s2.alarm k).enabled = false := hpost
        have hne : ((scanAux now ALARM_ALARMS 0
            { s with alarm_handled_minute := (now.minute : Int) }).2.alarm k).enabled ≠
            (({ s with alarm_handled_minute := (now.minute : Int) } : AlarmState).alarm k).enabled := by
          rw [hres]
          show (s2.alarm k).enabled ≠ (s.alarm k).enabled
          rw [hpost2, hpre]
          decide
        exact scanAux_enabled_change now ALARM_ALARMS 0 { s with alarm_handled_minute := (now.minute : Int) } k hne
      · have hpost2 : (s2.alarm k).enabled = false := hpost
        have hne : ((scanAux now ALARM_ALARMS 0
            { s with alarm_handled_minute := (now.minute : Int) }).2.alarm k).enabled ≠
            (({ s with alarm_handled_minute := (now.minute : Int) } : AlarmState).alarm k).enabled := by
          rw [hres]
          show (s2.alarm k).enabled ≠ (s.alarm k).enabled
          rw [hpost2, hpre]
          decide
        exact scanAux_enabled_change now ALARM_ALARMS 0 { s with alarm_handled_minute := (now.minute : Int) } k hne

/-- Witness for disable_only_toggle_or_one_time: the evaluator call on
oneTimeArmedState disables slot 0, and the disjunction holds through the
one-time branch. -/
theorem disable_only_toggle_or_one_time_witness :
    (oneTimeArmedState.is_setting = false ∧
      (oneTimeArmedState.alarm ⟨0, by decide⟩).enabled = true) ∧
    ((AlarmOp.bg midnightNow = AlarmOp.ev MovementEventType.alarm_long_press ∧
        (⟨0, by decide⟩ : Fin ALARM_ALARMS) = oneTimeArmedState.alarm_idx) ∨
      (∃ now, AlarmOp.bg midnightNow = AlarmOp.bg now ∧
        (oneTimeArmedState.alarm ⟨0, by decide⟩).day = ALARM_DAY_ONE_TIME)) :=
  ⟨by decide, disable_only_toggle_or_one_time oneTimeArmedState (AlarmOp.bg midnightNow)
    ⟨0, by decide⟩ (by decide) (by decide) (by decide)⟩

theorem dow_strings_length (i : Nat) : (_dow_strings i).length = 2 := by
  unfold _dow_strings
  split <;> rfl

theorem sprint2d_length (n : Nat) : (sprint2d n).length = 2 := by
  unfold sprint2d
  split <;> rfl

theorem hour_cells (i n1 h mi : Nat) (c : Char) :
    (_dow_strings i ++ (sprint2d n1 ++ (sprint2d h ++ (sprint02d mi ++ ([' '] ++ [c])))))[4]? =
      (sprint2d h)[0]? ∧
    (_dow_strings i ++ (sprint2d n1 ++ (sprint2d h ++ (sprint02d mi ++ ([' '] ++ [c])))))[5]? =
      (sprint2d h)[1]? := by
  have hd := dow_strings_length i
  have h1 := sprint2d_length n1
  have h2 := sprint2d_length h
  constructor
  · rw [List.getElem?_append_right (by omega), hd]
    show (sprint2d n1 ++ (sprint2d h ++ (sprint02d mi ++ ([' '] ++ [c]))))[2]? = _
    rw [List.getElem?_append_right (by omega), h1]
    show (sprint2d h ++ (sprint02d mi ++ ([' '] ++ [c])))[0]? = _
    rw [List.getElem?_append_left (by omega)]
  · rw [List.getElem?_append_right (by omega), hd]
    show (sprint2d n1 ++ (sprint2d h ++ (sprint02d mi ++ ([' '] ++ [c]))))[3]? = _
    rw [List.getElem?_append_right (by omega), h1]
    show (sprint2d h ++ (sprint02d mi ++ ([' '] ++ [c])))[1]? = _
    rw [List.getElem?_append_left (by omega)]

theorem draw_buf_cells (mode : Bool) (s : AlarmState) :
    (_alarm_face_draw mode s 0).buf[4]? =
      (sprint2d (if mode = false ∧ 12 < (s.alarm s.alarm_idx).hour then
        (s.alarm s.alarm_idx).hour - 12 else (s.alarm s.alarm_idx).hour))[0]? ∧
    (_alarm_face_draw mode s 0).buf[5]? =
      (sprint2d (if mode = false ∧ 12 < (s.alarm s.alarm_idx).hour then
        (s.alarm s.alarm_idx).hour - 12 else (s.alarm s.alarm_idx).hour))[1]? := by
  constructor
  · by_cases hset : s.is_setting = false
    · simp only [_alarm_face_draw]
      rw [if_neg (show ¬(s.is_setting = true ∧ (0 : Nat) % 2 ≠ 0) from fun c => c.2 (by decide)),
          if_pos hset]
      rw [List.getElem?_set_ne (by decide), List.getElem?_set_ne (by decide)]
      exact (hour_cells _ _ _ _ _).1
    · simp only [_alarm_face_draw]
      rw [if_neg (show ¬(s.is_setting = true ∧ (0 : Nat) % 2 ≠ 0) from fun c => c.2 (by decide)),
          if_neg hset]
      exact (hour_cells _ _ _ _ _).1
  · by_cases hset : s.is_setting = false
    · simp only [_alarm_face_draw]
      rw [if_neg (show ¬(s.is_setting = true ∧ (0 : Nat) % 2 ≠ 0) from fun c => c.2 (by decide)),
          if_pos hset]
      rw [List.getElem?_set_ne (by decide), List.getElem?_set_ne (by decide)]
      exact (hour_cells _ _ _ _ _).2
    · simp only [_alarm_face_draw]
      rw [if_neg (show ¬(s.is_setting = true ∧ (0 : Nat) % 2 ≠ 0) from fun c => c.2 (by decide)),
          if_neg hset]
      exact (hour_cells _ _ _ _ _).2

/-- C8 counterexample: in normal mode (fresh store, 24h clock, blink phase
0) the first two characters of the rendered buffer are the face label
"AL", not blanks. -/
theorem day_label_shows_AL_in_normal_mode :
    (_alarm_face_draw true alarm_face_setup 0).buf.take 2 = ['A', 'L'] ∧
    (_alarm_face_draw true alarm_face_setup 0).buf.take 2 ≠ [' ', ' '] := by decide

/-- C8 (amended): outside setting mode the day-label position (the first
two characters of the rendered buffer) always shows the fixed face label
"AL", for every store, clock mode and blink phase; a day-pattern
abbreviation appears there only in setting mode. -/
theorem day_label_in_normal_mode (mode : Bool) (s : AlarmState) (subsecond : Nat)
    (hmode : s.is_setting = false) :
    (_alarm_face_draw mode s subsecond).buf.take 2 = ['A', 'L'] := by
  unfold _alarm_face_draw
  rw [hmode]
  rfl

/-- Witness for day_label_in_normal_mode: the fresh store in 12h mode at
blink phase 3 renders "AL" in the first two cells. -/
theorem day_label_in_normal_mode_witness :
    alarm_face_setup.is_setting = false ∧
    (_alarm_face_draw false alarm_face_setup 3).buf.take 2 = ['A', 'L'] :=
  ⟨rfl, day_label_in_normal_mode false alarm_face_setup 3 rfl⟩

/-- C10: in 12h display mode the render function reduces the hour by 12 and
sets the PM indicator exactly when the stored hour is strictly greater
than 12; for hours 0..12 the hour is displayed unchanged and the PM
indicator is cleared, so midnight renders as hour 0 and noon as hour 12
without PM.  Stated at blink phase 0 (all characters visible); the hour
occupies buffer cells 4 and 5. -/
theorem twelve_hour_display (s : AlarmState)
    (_hh : (s.alarm s.alarm_idx).hour < 24) :
    (_alarm_face_draw false s 0).pm =
      some (decide (12 < (s.alarm s.alarm_idx).hour)) ∧
    (_alarm_face_draw false s 0).buf[4]? =
      (sprint2d (if 12 < (s.alarm s.alarm_idx).hour then
        (s.alarm s.alarm_idx).hour - 12 else (s.alarm s.alarm_idx).hour))[0]? ∧
    (_alarm_face_draw false s 0).buf[5]? =
      (sprint2d (if 12 < (s.alarm s.alarm_idx).hour then
        (s.alarm s.alarm_idx).hour - 12 else (s.alarm s.alarm_idx).hour))[1]? := by
  have hb := draw_buf_cells false s
  simp only [eq_self_iff_true, true_and] at hb
  refine ⟨?_, hb.1, hb.2⟩
  simp [_alarm_face_draw]

/-- Witness for twelve_hour_display: dayMismatchState displays slot 0 with
hour 8, PM cleared, and cells 4 and 5 showing " 8". -/
theorem twelve_hour_display_witness :
    ((dayMismatchState.alarm dayMismatchState.alarm_idx).hour < 24) ∧
    ((_alarm_face_draw false dayMismatchState 0).pm =
      some (decide (12 < (dayMismatchState.alarm dayMismatchState.alarm_idx).hour)) ∧
    (_alarm_face_draw false dayMismatchState 0).buf[4]? =
      (sprint2d (if 12 < (dayMismatchState.alarm dayMismatchState.alarm_idx).hour then
        (dayMismatchState.alarm dayMismatchState.alarm_idx).hour - 12
        else (dayMismatchState.alarm dayMismatchState.alarm_idx).hour))[0]? ∧
    (_alarm_face_draw false dayMismatchState 0).buf[5]? =
      (sprint2d (if 12 < (dayMismatchState.alarm dayMismatchState.alarm_idx).hour then
        (dayMismatchState.alarm dayMismatchState.alarm_idx).hour - 12
        else (dayMismatchState.alarm dayMismatchState.alarm_idx).hour))[1]?) :=
  ⟨by decide, twelve_hour_display dayMismatchState (by decide)⟩

theorem yearFold_closed : ∀ n, n < 80 →
    (List.range n).foldl (fun acc k => acc + (if isLeapYear (2020 + k) then 366 else 365)) 0 =
      yearDaysC n := by decide

theorem daysBeforeMonth_closed : ∀ a, a < 80 → ∀ m, m < 13 →
    daysBeforeMonth (2020 + a) m = monthDaysC (2020 + a) m := by decide

theorem daysFrom2020_closed (a m d : Nat) (ha : a < 80) (hm : m < 13) :
    daysFrom2020 (2020 + a) m d = yearDaysC a + monthDaysC (2020 + a) m + (d - 1) := by
  unfold daysFrom2020
  rw [show 2020 + a - 2020 = a by omega]
  rw [yearFold_closed a ha, daysBeforeMonth_closed a ha m hm]

theorem gregorianWeekday_closed (a m d : Nat) (ha : a < 80) (hm : m < 13) :
    gregorianWeekday (2020 + a) m d =
      (yearDaysC a + monthDaysC (2020 + a) m + (d - 1) + 2) % 7 := by
  unfold gregorianWeekday
  rw [daysFrom2020_closed a m d ha hm]

theorem daysInMonth_le (y m : Nat) : daysInMonth y m ≤ 31 := by
  unfold daysInMonth
  split
  · split <;> decide
  · split <;> decide

set_option maxHeartbeats 8000000 in
theorem zeller_matches_closed : ∀ a, a < 80 → ∀ m, m < 13 → ∀ d, d < 32 →
    (1 ≤ m ∧ 1 ≤ d ∧ d ≤ daysInMonth (2020 + a) m →
      _get_weekday_idx ⟨a, m, d, 0, 0⟩ =
        (yearDaysC a + monthDaysC (2020 + a) m + (d - 1) + 2) % 7) := by decide

/-- C5: for every calendar date the host RTC can produce — modelled from
the spec as an offset year 0..79 (2020..2099, within the century where the
Zeller variant of the code is exact) with a valid Gregorian month and day —
the weekday function agrees with the reference Gregorian weekday
(0 = Monday .. 6 = Sunday, anchored at Wednesday 2020-01-01); in
particular 2024-01-01 (a Monday) yields 0 and 2024-01-07 (a Sunday)
yields 6. -/
theorem weekday_idx_correct :
    (∀ dt : WatchDateTime, dt.year < 80 → 1 ≤ dt.month → dt.month ≤ 12 →
      1 ≤ dt.day → dt.day ≤ daysInMonth (2020 + dt.year) dt.month →
      _get_weekday_idx dt = gregorianWeekday (2020 + dt.year) dt.month dt.day) ∧
    _get_weekday_idx ⟨4, 1, 1, 0, 0⟩ = 0 ∧ _get_weekday_idx ⟨4, 1, 7, 0, 0⟩ = 6 := by
  refine ⟨?_, by decide, by decide⟩
  intro dt
  obtain ⟨y, m, d, hh, mi⟩ := dt
  intro hy hm1 hm2 hd1 hd2
  have hy' : y < 80 := hy
  have hm1' : 1 ≤ m := hm1
  have hm2' : m ≤ 12 := hm2
  have hd1' : 1 ≤ d := hd1
  have hd2' : d ≤ daysInMonth (2020 + y) m := hd2
  have hdm := daysInMonth_le (2020 + y) m
  show _get_weekday_idx ⟨y, m, d, hh, mi⟩ = gregorianWeekday (2020 + y) m d
  have he : _get_weekday_idx ⟨y, m, d, hh, mi⟩ = _get_weekday_idx ⟨y, m, d, 0, 0⟩ := rfl
  rw [he, gregorianWeekday_closed y m d hy' (by omega)]
  exact zeller_matches_closed y hy' m (by omega) d (by omega) ⟨hm1', hd1', hd2'⟩

/-- Witness for weekday_idx_correct: the leap day 2024-02-29 is a valid RTC
date and the weekday function agrees with the Gregorian reference there. -/
theorem weekday_idx_correct_witness :
    ((4 : Nat) < 80 ∧ 29 ≤ daysInMonth (2020 + 4) 2) ∧
    _get_weekday_idx ⟨4, 2, 29, 0, 0⟩ = gregorianWeekday (2020 + 4) 2 29 :=
  ⟨by decide, weekday_idx_correct.1 ⟨4, 2, 29, 0, 0⟩ (by decide) (by decide) (by decide)
    (by decide) (by decide)⟩
